import Mathlib

/-!
Verification of the FedMed SuperNode plugin (`app.py`).

The development shallowly embeds the plugin's pure logic:
* the summary-capture hook `_capture` attached to the stdout stream relay,
* the process supervisor `_run_supernode` (exit-code handling and fallback),
* the signal/cleanup coordinator (`_terminate_process`, `_cleanup_children`),
* the command builder (`_transport_flag`, the `flower-supernode` argv),
* configuration validation and the `_plugin_main` effect sequence,
* the environment builder `_prepare_environment`.

External collaborators are passed as parameters: the JSON codec
(`json.loads` / `json.dumps`), the ambient environment, and the OS-level
`Path.expanduser`.  Filesystem and process effects are modelled as explicit
event traces.
-/

namespace PlSupernode

/-- The marker token `SUMMARY_TOKEN` from `app.py`. -/
def SUMMARY_TOKEN : String := "[fedmed-supernode-app] SUMMARY "

/-- Values produced by `json.loads`: JSON is decoded to `None`, `bool`,
`int`/`float` (modelled as `Int`; no float payloads appear in the claims),
`str`, `list`, or `dict`. -/
inductive JVal where
  | null
  | bool (b : Bool)
  | int (n : Int)
  | str (s : String)
  | arr (elems : List JVal)
  | obj (fields : List (String × JVal))

/-- Field access `dict.get` on a decoded object; `none` on a missing key.  Only objects
have fields. -/
def JVal.lookupField : JVal → String → Option JVal
  | .obj fs, k => fs.lookup k
  | _, _ => none

/-- Whether a decoded value is a Python `dict` (the only values that have a
`.get` attribute). -/
def JVal.isObj : JVal → Bool
  | .obj _ => true
  | _ => false

/-- Everything after the first occurrence of `tok` in `cs`
(`line.split(tok, maxsplit=1)[1]` in Python), or `none` when `tok` does not
occur.  Structural recursion on the scanned characters. -/
def afterFirst (tok : List Char) : List Char → Option (List Char)
  | [] => if tok = [] then some [] else none
  | c :: cs =>
    if tok.isPrefixOf (c :: cs) then some ((c :: cs).drop tok.length)
    else afterFirst tok cs

/-- Python `str.strip()`: drop whitespace from both ends. -/
def trimChars (cs : List Char) : List Char :=
  ((cs.dropWhile Char.isWhitespace).reverse.dropWhile Char.isWhitespace).reverse

/-- The candidate payload of a relayed line: present exactly when the line
contains `SUMMARY_TOKEN`, in which case it is the text after the first
token occurrence, stripped (`line.split(SUMMARY_TOKEN, maxsplit=1)[1].strip()`). -/
def payloadOf (line : String) : Option String :=
  (afterFirst SUMMARY_TOKEN.data line.data).map fun cs => String.mk (trimChars cs)

/-- The check `parsed.get("kind") == "train"` for a decoded dict. -/
def kindIsTrain (fields : List (String × JVal)) : Bool :=
  match fields.lookup "kind" with
  | some (.str s) => s == "train"
  | _ => false

/-- The exception `_capture` can actually raise: `parsed.get("kind")` on a
decoded value that is not a dict raises `AttributeError` (only
`json.JSONDecodeError` is caught by the `try`/`except`). -/
inductive CaptureError where
  | attributeError

/-- One invocation of the `_capture` hook from `app.py` on a single relayed
line, over the current `metrics` slot.  `decode` stands for `json.loads`,
returning `none` on `json.JSONDecodeError` (which `_capture` catches, logs
and ignores).  A payload decoding to a non-dict raises `AttributeError`. -/
def captureStep (decode : String → Option JVal) (metrics : Option JVal)
    (line : String) : Except CaptureError (Option JVal) :=
  match payloadOf line with
  | none => .ok metrics
  | some payload =>
    match decode payload with
    | none => .ok metrics
    | some parsed =>
      match parsed with
      | .obj fields =>
        .ok (if kindIsTrain fields then some (JVal.obj fields) else metrics)
      | _ => .error .attributeError

/-- The stdout relay feeding every line to `_capture` in order
(`_stream_lines` with the `_capture` hook).  An uncaught exception from the
hook kills the relay thread: the slot keeps its prior value and the
remaining lines are not processed.  Returns the final slot and whether the
hook raised. -/
def processLines (decode : String → Option JVal) :
    List String → Option JVal → Option JVal × Bool
  | [], metrics => (metrics, false)
  | line :: rest, metrics =>
    match captureStep decode metrics line with
    | .ok m => processLines decode rest m
    | .error _ => (metrics, true)

/-- The record a single line contributes: `some` exactly when the line
contains the token and its payload decodes to a dict whose `kind` is
`"train"`. -/
def trainRecord (decode : String → Option JVal) (line : String) : Option JVal :=
  match payloadOf line with
  | none => none
  | some payload =>
    match decode payload with
    | none => none
    | some parsed =>
      match parsed with
      | .obj fields => if kindIsTrain fields then some (JVal.obj fields) else none
      | _ => none

/-- Whether feeding this line to `_capture` raises `AttributeError`:
the payload decodes successfully to a non-dict. -/
def lineCrashes (decode : String → Option JVal) (line : String) : Bool :=
  match payloadOf line with
  | none => false
  | some payload =>
    match decode payload with
    | some parsed => !parsed.isObj
    | none => false

/-- Modelled from the spec: "keeping only the last" — the decoded payload of
the last line whose payload decodes successfully with kind `"train"`;
`none` when no such line occurs. -/
def lastTrain (decode : String → Option JVal) : List String → Option JVal
  | [] => none
  | line :: rest =>
    match lastTrain decode rest with
    | some j => some j
    | none => trainRecord decode line

/-- The frozen `NodeConfig` dataclass from `app.py`. -/
structure NodeConfig where
  cid : Int
  total_clients : Int
  data_seed : Int

/-- Serialization `NodeConfig.as_flag`: the f-string
`"partition-id={cid} num-partitions={total_clients} data-seed={data_seed}"`. -/
def NodeConfig.as_flag (c : NodeConfig) : String :=
  "partition-id=" ++ (toString c.cid ++ (" num-partitions=" ++
    (toString c.total_clients ++ (" data-seed=" ++ toString c.data_seed))))

/-- The frozen `ConnectionTargets` dataclass from `app.py`. -/
structure ConnectionTargets where
  superlink : String
  clientapp : String

/-- The parsed CLI options relevant to the embedded logic (`argparse`
defaults as in `build_parser`). -/
structure Options where
  cid : Int
  total_clients : Int
  data_seed : Int
  superlink_host : String
  superlink_port : Int
  clientapp_host : String
  clientapp_port : Int
  metrics_file : String
  state_dir : String
  keep_state : Bool
  transport : String

/-- Function `_build_node_config` from `app.py`. -/
def build_node_config (o : Options) : NodeConfig :=
  ⟨o.cid, o.total_clients, o.data_seed⟩

/-- Function `_build_targets` from `app.py`: `f"{host}:{port}"` for both services. -/
def build_targets (o : Options) : ConnectionTargets :=
  ⟨o.superlink_host ++ (":" ++ toString o.superlink_port),
   o.clientapp_host ++ (":" ++ toString o.clientapp_port)⟩

/-- Function `_transport_flag` from `app.py`.  Total: any string other than the two
gRPC modes selects the REST flag; nothing raises. -/
def transport_flag (transport : String) : List String :=
  if transport = "grpc-rere" then ["--grpc-rere"]
  else if transport = "grpc-adapter" then ["--grpc-adapter"]
  else ["--rest"]

/-- The `cmd` list assembled in `_run_supernode`. -/
def build_cmd (o : Options) : List String :=
  ["flower-supernode", "--insecure"] ++ transport_flag o.transport ++
    ["--superlink=" ++ (build_targets o).superlink,
     "--clientappio-api-address=" ++ (build_targets o).clientapp,
     "--node-config",
     (build_node_config o).as_flag]

/-- The exit-code / cid validation at the top of `_plugin_main`
(the two `ValueError` raises). -/
def validate_config (cid total_clients : Int) : Except String Unit :=
  if total_clients ≤ 0 then .error "total-clients must be >= 1"
  else if cid < 0 ∨ cid ≥ total_clients then
    .error "cid must be within [0, total-clients)"
  else .ok ()

/-- The fallback metrics dict synthesized by `_run_supernode` when the child
exits 0 without emitting a train summary. -/
def fallback_record (cid : Int) : JVal :=
  JVal.obj [("kind", JVal.str "train"),
            ("partition_id", JVal.int cid),
            ("metrics", JVal.obj []),
            ("message", JVal.str "No metrics emitted by the ClientApp.")]

/-- What the supervisor observes of the opaque child process: its exit code
and the lines delivered to the stdout relay. -/
structure RunBehavior where
  exitCode : Int
  stdoutLines : List String

/-- The result-producing tail of `_run_supernode` (after both relay threads
are joined): `metrics` is whatever the `_capture` hook accumulated over the
stdout lines; a non-zero exit raises `RuntimeError` (the WorkerFailed error,
carrying the exit code); on exit 0 a missing summary is replaced by the
fallback record. -/
def run_supernode (decode : String → Option JVal) (o : Options)
    (beh : RunBehavior) : Except Int JVal :=
  let metrics := (processLines decode beh.stdoutLines none).1
  if beh.exitCode ≠ 0 then .error beh.exitCode
  else
    match metrics with
    | some m => .ok m
    | none => .ok (fallback_record o.cid)

/-- A tracked child handle as the cleanup coordinator sees it:
`running` iff `proc.poll()` returns `None`; `gracefulOk` iff the child exits
within the wait window after `proc.terminate()`. -/
structure Proc where
  running : Bool
  gracefulOk : Bool

/-- Observable actions of `_terminate_process` on a handle. -/
inductive PAct where
  | terminate
  | waitTimeout (t : ℚ)
  | kill
  | wait
deriving DecidableEq

/-- Function `_terminate_process` from `app.py`: no-op when `poll()` is non-`None`;
otherwise `terminate()` then `wait(timeout)`; on `TimeoutExpired`,
`kill()` then an unbounded `wait()`.  Returns the handle's new state and the
actions performed. -/
def terminate_process (p : Proc) (timeout : ℚ) : Proc × List PAct :=
  if p.running = false then (p, [])
  else if p.gracefulOk then
    ({ p with running := false }, [.terminate, .waitTimeout timeout])
  else
    ({ p with running := false }, [.terminate, .waitTimeout timeout, .kill, .wait])

/-- The actions of terminating each handle of a list in order, with the
default timeout `10.0` used by `_cleanup_children`. -/
def sweepTrace : List Proc → List PAct
  | [] => []
  | p :: rest => (terminate_process p 10).2 ++ sweepTrace rest

/-- Function `_cleanup_children` from `app.py`: terminate every registered child in
`reversed(CHILDREN)` order, then `CHILDREN.clear()`.  Returns the cleared
registry and the performed actions.  (The registry list is in registration
order: `_register_child` appends.) -/
def cleanup_children (reg : List Proc) : List Proc × List PAct :=
  ([], sweepTrace reg.reverse)

/-- Python dict assignment `env[key] = value`: overwrite an existing binding
in place (keys of `os.environ` are unique), else append. -/
def setVar : List (String × String) → String → String → List (String × String)
  | [], key, value => [(key, value)]
  | kv :: rest, key, value =>
    if kv.1 = key then (key, value) :: setVar rest key value
    else kv :: setVar rest key value

/-- Directory creation `Path.mkdir(parents=True, exist_ok=True)` over the set of existing
directories: creating an existing directory is a no-op and never fails. -/
def mkdirP (dirs : List String) (p : String) : List String :=
  if dirs.contains p then dirs else p :: dirs

/-- Function `_prepare_environment` from `app.py`: copy the ambient environment,
derive `flwr_home = Path(state_root).expanduser() / f"cid-{cid}"`, create it
with `parents=True, exist_ok=True`, and override `FLWR_HOME`.  `expander`
stands for the OS-dependent `Path.expanduser`. -/
def prepare_environment (ambient : List (String × String)) (dirs : List String)
    (expander : String → String) (state_root : String) (cid : Int) :
    List (String × String) × String × List String :=
  let flwr_home := expander state_root ++ ("/cid-" ++ toString cid)
  (setVar ambient "FLWR_HOME" flwr_home, flwr_home, mkdirP dirs flwr_home)

/-- Run-ending errors of `_plugin_main`: the two `ValueError`s
(ConfigurationError) and the `RuntimeError` from `_run_supernode`
(WorkerFailed, carrying the child's exit code). -/
inductive PlugErr where
  | configError (msg : String)
  | workerFailed (code : Int)

/-- Observable effects of `_plugin_main`, in program order. -/
inductive Event where
  | mkdirE (path : String)
  | spawnE (cmd : List String)
  | cleanupE
  | writeE (path content : String)
  | rmtreeE (path : String)
deriving DecidableEq

/-- The effectful body of `_plugin_main` (after the `--json` early exit):
validate, prepare the per-cid environment, run the supervised child (whose
spawn is recorded), always run `_cleanup_children` (the `finally` block),
and only on success write `json.dumps(summary, indent=2)` to
`outputdir / metrics_file` and, unless `keep_state`, recursively delete
`flwr_home` (`shutil.rmtree(..., ignore_errors=True)` never fails).
`dumps` stands for `json.dumps(·, indent=2)`. -/
def plugin_main (dumps : JVal → String) (decode : String → Option JVal)
    (expander : String → String) (ambient : List (String × String))
    (o : Options) (beh : RunBehavior) (outputdir : String) :
    Except PlugErr JVal × List Event :=
  match validate_config o.cid o.total_clients with
  | .error msg => (.error (.configError msg), [])
  | .ok _ =>
    let pe := prepare_environment ambient [] expander o.state_dir o.cid
    let flwr_home := pe.2.1
    let ev1 : List Event := [.mkdirE flwr_home, .spawnE (build_cmd o), .cleanupE]
    match run_supernode decode o beh with
    | .error code => (.error (.workerFailed code), ev1)
    | .ok summary =>
      let path := outputdir ++ ("/" ++ o.metrics_file)
      let ev2 := ev1 ++ [.writeE path (dumps summary)]
      if o.keep_state then (.ok summary, ev2)
      else (.ok summary, ev2 ++ [.rmtreeE flwr_home])

/-! Concrete fixtures used by the witness theorems. -/

/-- A train-summary payload as the worker emits it. -/
def trainPayload1 : String := "\x7b\"kind\": \"train\", \"round\": 1\x7d"

/-- A second train-summary payload. -/
def trainPayload2 : String := "\x7b\"kind\": \"train\", \"round\": 2\x7d"

/-- An eval-kind payload (ignored by the capture hook). -/
def evalPayload : String := "\x7b\"kind\": \"eval\", \"round\": 3\x7d"

/-- Value of `json.loads trainPayload1`. -/
def trainRec1 : JVal := JVal.obj [("kind", JVal.str "train"), ("round", JVal.int 1)]

/-- Value of `json.loads trainPayload2`. -/
def trainRec2 : JVal := JVal.obj [("kind", JVal.str "train"), ("round", JVal.int 2)]

/-- Value of `json.loads evalPayload`. -/
def evalRec : JVal := JVal.obj [("kind", JVal.str "eval"), ("round", JVal.int 3)]

/-- Decoder `json.loads` restricted to the payloads exercised by the witnesses:
`"3"` is valid JSON and decodes to the integer `3` (not a dict); the three
dict payloads decode to their object values; everything else (e.g. the
malformed `"\x7bnot json"`) raises `json.JSONDecodeError`, i.e. `none`. -/
def jsonLoadsStub (s : String) : Option JVal :=
  if s = "3" then some (JVal.int 3)
  else if s = trainPayload1 then some trainRec1
  else if s = trainPayload2 then some trainRec2
  else if s = evalPayload then some evalRec
  else none

/-- A decoder that rejects everything (a run whose child emits no
well-formed summary). -/
def decode0 : String → Option JVal := fun _ => none

/-- A stub serializer standing for `json.dumps(·, indent=2)`. -/
def dumps0 : JVal → String := fun _ => "serialized"

/-- The parser defaults from `build_parser` in `app.py`. -/
def opts0 : Options :=
  ⟨0, 3, 13, "fedmed-pl-superlink", 9092, "0.0.0.0", 9094,
   "client_metrics.json", "/tmp/fedmed-flwr-node", false, "grpc-rere"⟩

/-- A child that exits 0 emitting nothing. -/
def beh00 : RunBehavior := ⟨0, []⟩

/-- A child killed with exit code 137 after emitting a valid train summary. -/
def beh137 : RunBehavior := ⟨137, [SUMMARY_TOKEN ++ trainPayload1]⟩

/-- Lines exercising the capture hook: a train summary, malformed JSON after
the token, a non-train kind, then a second train summary. -/
def captureLines : List String :=
  [SUMMARY_TOKEN ++ trainPayload1,
   SUMMARY_TOKEN ++ "\x7bnot json",
   SUMMARY_TOKEN ++ evalPayload,
   "plain log line",
   SUMMARY_TOKEN ++ trainPayload2]

/-! Theorems -/

/-- The stdout relay fold computes the last train record, for any initial
slot value, provided no line makes the hook raise. -/
theorem processLines_eq_lastTrain (decode : String → Option JVal) :
    ∀ (lines : List String) (metrics : Option JVal),
      (∀ l ∈ lines, lineCrashes decode l = false) →
      processLines decode lines metrics =
        ((lastTrain decode lines).elim metrics some, false) := by
  intro lines
  induction lines with
  | nil => intro metrics _; rfl
  | cons line rest ih =>
    intro metrics h
    have hline : lineCrashes decode line = false := h line (by simp)
    have hrest : ∀ l ∈ rest, lineCrashes decode l = false :=
      fun l hl => h l (by simp [hl])
    rcases hp : payloadOf line with _ | payload
    · have hcap : captureStep decode metrics line = .ok metrics := by
        simp [captureStep, hp]
      have htr : trainRecord decode line = none := by simp [trainRecord, hp]
      simp only [processLines, hcap]
      rw [ih metrics hrest]
      simp only [lastTrain, htr]
      cases lastTrain decode rest <;> simp
    · rcases hd : decode payload with _ | parsed
      · have hcap : captureStep decode metrics line = .ok metrics := by
          simp [captureStep, hp, hd]
        have htr : trainRecord decode line = none := by simp [trainRecord, hp, hd]
        simp only [processLines, hcap]
        rw [ih metrics hrest]
        simp only [lastTrain, htr]
        cases lastTrain decode rest <;> simp
      · cases parsed with
        | obj fields =>
          rcases hk : kindIsTrain fields with _ | _
          · have hcap : captureStep decode metrics line = .ok metrics := by
              simp [captureStep, hp, hd, hk]
            have htr : trainRecord decode line = none := by
              simp [trainRecord, hp, hd, hk]
            simp only [processLines, hcap]
            rw [ih metrics hrest]
            simp only [lastTrain, htr]
            cases lastTrain decode rest <;> simp
          · have hcap : captureStep decode metrics line =
                .ok (some (JVal.obj fields)) := by
              simp [captureStep, hp, hd, hk]
            have htr : trainRecord decode line = some (JVal.obj fields) := by
              simp [trainRecord, hp, hd, hk]
            simp only [processLines, hcap]
            rw [ih (some (JVal.obj fields)) hrest]
            simp only [lastTrain, htr]
            cases lastTrain decode rest <;> simp
        | null => exact absurd hline (by simp [lineCrashes, hp, hd, JVal.isObj])
        | bool b => exact absurd hline (by simp [lineCrashes, hp, hd, JVal.isObj])
        | int n => exact absurd hline (by simp [lineCrashes, hp, hd, JVal.isObj])
        | str s => exact absurd hline (by simp [lineCrashes, hp, hd, JVal.isObj])
        | arr elems =>
          exact absurd hline (by simp [lineCrashes, hp, hd, JVal.isObj])

/-- C1 (amended): for every sequence of lines fed to the stdout capture hook
in which no marker payload decodes successfully to a non-dict value, the
stored summary slot ends up equal to the decoded payload of the last line
containing the marker token whose payload decodes successfully (to a dict)
with kind `"train"`; lines whose payloads fail to decode, or decode to a
dict with a kind other than `"train"`, leave the slot unchanged and do not
raise.  (A payload decoding to a non-dict makes the hook raise
`AttributeError`; see the counterexample.) -/
theorem capture_last_train_c1 (decode : String → Option JVal)
    (lines : List String)
    (h : ∀ l ∈ lines, lineCrashes decode l = false) :
    processLines decode lines none = (lastTrain decode lines, false) := by
  rw [processLines_eq_lastTrain decode lines none h]
  cases lastTrain decode lines <;> simp

/-- C1 counterexample: the line `SUMMARY_TOKEN ++ "3"` carries the payload
`"3"`, which `json.loads` decodes successfully to the integer `3`; its kind
is not `"train"` (`trainRecord` is `none`), so per the claim the hook should
leave the slot unchanged and never raise — but `parsed.get("kind")` on a
non-dict raises `AttributeError` (second component `true`), killing the
stdout relay thread. -/
theorem capture_c1_counterexample :
    processLines jsonLoadsStub [SUMMARY_TOKEN ++ "3"] none = (none, true)
    ∧ trainRecord jsonLoadsStub (SUMMARY_TOKEN ++ "3") = none :=
  ⟨rfl, rfl⟩

/-- C1 witness: on a concrete run with a train summary, malformed JSON, an
eval-kind summary, a plain line and a final train summary, the hypothesis
holds and the slot ends at the last train record. -/
theorem capture_c1_witness :
    (∀ l ∈ captureLines, lineCrashes jsonLoadsStub l = false)
    ∧ processLines jsonLoadsStub captureLines none =
        (lastTrain jsonLoadsStub captureLines, false)
    ∧ lastTrain jsonLoadsStub captureLines = some trainRec2 :=
  ⟨by decide, capture_last_train_c1 jsonLoadsStub captureLines (by decide), rfl⟩

/-- C2: whenever the child exits non-zero, `_run_supernode` raises the
WorkerFailed error carrying exactly that exit code, for every stream
content and decoder — any summary accumulated before the exit is discarded
and never returned. -/
theorem worker_failed_c2 (decode : String → Option JVal) (o : Options)
    (beh : RunBehavior) (h : beh.exitCode ≠ 0) :
    run_supernode decode o beh = Except.error beh.exitCode := by
  simp [run_supernode, h]

/-- C2 witness: a child killed with exit code 137 after emitting a valid
train summary still fails with that code. -/
theorem worker_failed_c2_witness :
    run_supernode jsonLoadsStub opts0 beh137 = Except.error 137 :=
  worker_failed_c2 jsonLoadsStub opts0 beh137 (by decide)

/-- The C3 property of one supervised run: on a captured train summary the
exact record is returned; otherwise the synthesized fallback record, with
kind `"train"`, the configured node id, an empty metrics mapping and a
non-empty message, is returned. -/
def FallbackSpec (decode : String → Option JVal) (o : Options)
    (beh : RunBehavior) : Prop :=
  ((processLines decode beh.stdoutLines none).1 = none →
    run_supernode decode o beh = Except.ok (fallback_record o.cid)
    ∧ (fallback_record o.cid).lookupField "kind" = some (JVal.str "train")
    ∧ (fallback_record o.cid).lookupField "partition_id" = some (JVal.int o.cid)
    ∧ (fallback_record o.cid).lookupField "metrics" = some (JVal.obj [])
    ∧ ∃ m, (fallback_record o.cid).lookupField "message" = some (JVal.str m)
        ∧ m ≠ "")
  ∧ (∀ j, (processLines decode beh.stdoutLines none).1 = some j →
      run_supernode decode o beh = Except.ok j)

/-- C3: when the child exits zero, `_run_supernode` returns the captured
train summary exactly if one was stored, and otherwise the fallback record
tagged with the configured node id, an empty metrics mapping and a
non-empty explanatory message. -/
theorem fallback_record_c3 (decode : String → Option JVal) (o : Options)
    (beh : RunBehavior) (h : beh.exitCode = 0) :
    FallbackSpec decode o beh := by
  constructor
  · intro hm
    refine ⟨?_, rfl, rfl, rfl, "No metrics emitted by the ClientApp.", rfl, by decide⟩
    simp [run_supernode, h, hm]
  · intro j hj
    simp [run_supernode, h, hj]

/-- C3 witness: a child that exits 0 emitting nothing yields the fallback
record with all its advertised fields. -/
theorem fallback_record_c3_witness : FallbackSpec decode0 opts0 beh00 :=
  fallback_record_c3 decode0 opts0 beh00 rfl

/-- C4: the cleanup sweep leaves the registry empty; the most recently
registered child is handled first (reverse registration order); a
still-running child receives a graceful `terminate` followed by a wait
bounded by the default ten time units, and — exactly when it does not exit
within that window — an unconditional `kill` and an unbounded `wait`; after
`_terminate_process` the handle is no longer running. -/
theorem cleanup_sweep_c4 (reg : List Proc) (p : Proc) :
    (cleanup_children reg).1 = []
    ∧ (cleanup_children (reg ++ [p])).2 =
        (terminate_process p 10).2 ++ (cleanup_children reg).2
    ∧ (p.running = true → p.gracefulOk = true →
        (terminate_process p 10).2 = [.terminate, .waitTimeout 10])
    ∧ (p.running = true → p.gracefulOk = false →
        (terminate_process p 10).2 =
          [.terminate, .waitTimeout 10, .kill, .wait])
    ∧ (terminate_process p 10).1.running = false := by
  refine ⟨rfl, ?_, ?_, ?_, ?_⟩
  · simp [cleanup_children, sweepTrace]
  · intro h1 h2; simp [terminate_process, h1, h2]
  · intro h1 h2; simp [terminate_process, h1, h2]
  · rcases h1 : p.running with _ | _
    · simp [terminate_process, h1]
    · rcases h2 : p.gracefulOk with _ | _ <;> simp [terminate_process, h1, h2]

/-- C4 witness: a registry holding a graceful child then a stuck child is
swept stuck-child-first, with the advertised action sequences, and ends
empty. -/
theorem cleanup_sweep_c4_witness :
    (cleanup_children [⟨true, true⟩]).1 = []
    ∧ (cleanup_children [⟨true, true⟩, (⟨true, false⟩ : Proc)]).2 =
        (terminate_process ⟨true, false⟩ 10).2
          ++ (cleanup_children [⟨true, true⟩]).2
    ∧ (terminate_process (⟨true, false⟩ : Proc) 10).2 =
        [.terminate, .waitTimeout 10, .kill, .wait] := by
  have h := cleanup_sweep_c4 [⟨true, true⟩] ⟨true, false⟩
  exact ⟨h.1, h.2.1, h.2.2.2.1 rfl rfl⟩

/-- C5: a termination request to a handle whose process has already exited
is a no-op (no actions, state unchanged), and running the cleanup sweep on
the registry left by a previous sweep performs no actions and does not
raise — the sweep is idempotent. -/
theorem cleanup_idempotent_c5 (reg : List Proc) (p : Proc) (timeout : ℚ) :
    (p.running = false → terminate_process p timeout = (p, []))
    ∧ cleanup_children (cleanup_children reg).1 = ([], []) := by
  constructor
  · intro h; simp [terminate_process, h]
  · rfl

/-- C5 witness: terminating an already-reaped handle is a no-op, and a
second sweep after sweeping a two-child registry does nothing. -/
theorem cleanup_idempotent_c5_witness :
    terminate_process (⟨false, true⟩ : Proc) 10 = (⟨false, true⟩, [])
    ∧ cleanup_children (cleanup_children [⟨true, true⟩, ⟨false, false⟩]).1 =
        ([], []) :=
  ⟨(cleanup_idempotent_c5 [] ⟨false, true⟩ 10).1 rfl,
   (cleanup_idempotent_c5 [⟨true, true⟩, ⟨false, false⟩] ⟨false, true⟩ 10).2⟩

/-- Recognizer for the three transport flags the command builder can emit. -/
def isTransportFlag (s : String) : Bool :=
  s == "--grpc-rere" || s == "--grpc-adapter" || s == "--rest"

/-- A string with a known first character differs from any string not
starting with that character, whatever is appended. -/
theorem append_ne_of_head (c : Char) (pre s t : String)
    (hpre : pre.data.head? = some c) (ht : t.data.head? ≠ some c) :
    pre ++ s ≠ t := by
  intro h
  apply ht
  rw [← h, String.data_append]
  cases hp : pre.data with
  | nil => rw [hp] at hpre; exact absurd hpre (by simp)
  | cons a rest =>
    rw [hp] at hpre
    rw [List.cons_append]
    simpa using hpre

/-- The superlink argument never collides with the adapter flag: the third
characters differ. -/
theorem superlink_ne_adapter (s : String) :
    ("--superlink=" ++ s) ≠ "--grpc-adapter" := by
  intro h
  have hd := congrArg String.data h
  rw [String.data_append] at hd
  have e1 : "--superlink=".data =
      ['-', '-', 's', 'u', 'p', 'e', 'r', 'l', 'i', 'n', 'k', '='] := rfl
  have e2 : "--grpc-adapter".data =
      ['-', '-', 'g', 'r', 'p', 'c', '-', 'a', 'd', 'a', 'p', 't', 'e', 'r'] := rfl
  rw [e1, e2] at hd
  simp only [List.cons_append] at hd
  injection hd with h1 hd
  injection hd with h2 hd
  injection hd with h3 hd
  exact absurd h3 (by decide)

/-- The `--superlink=...` argument is never a transport flag. -/
theorem not_tflag_superlink (s : String) :
    isTransportFlag ("--superlink=" ++ s) = false := by
  simp only [isTransportFlag, Bool.or_eq_false_iff, beq_eq_false_iff_ne, ne_eq]
  refine ⟨⟨?_, superlink_ne_adapter s⟩, ?_⟩
  · intro h
    have hl := congrArg String.length h
    rw [String.length_append] at hl
    have e1 : "--superlink=".length = 12 := rfl
    have e2 : "--grpc-rere".length = 11 := rfl
    omega
  · intro h
    have hl := congrArg String.length h
    rw [String.length_append] at hl
    have e1 : "--superlink=".length = 12 := rfl
    have e2 : "--rest".length = 6 := rfl
    omega

/-- The `--clientappio-api-address=...` argument is never a transport flag
(it is longer than every flag). -/
theorem not_tflag_clientapp (s : String) :
    isTransportFlag ("--clientappio-api-address=" ++ s) = false := by
  simp only [isTransportFlag, Bool.or_eq_false_iff, beq_eq_false_iff_ne, ne_eq]
  have e1 : "--clientappio-api-address=".length = 26 := rfl
  refine ⟨⟨?_, ?_⟩, ?_⟩ <;> intro h <;>
    [have e2 : "--grpc-rere".length = 11 := rfl;
     have e2 : "--grpc-adapter".length = 14 := rfl;
     have e2 : "--rest".length = 6 := rfl] <;>
  · have hl := congrArg String.length h
    rw [String.length_append] at hl
    omega

/-- The serialized node config is never a transport flag (it starts with
`p`, not `-`). -/
theorem not_tflag_partition (s : String) :
    isTransportFlag ("partition-id=" ++ s) = false := by
  simp only [isTransportFlag, Bool.or_eq_false_iff, beq_eq_false_iff_ne, ne_eq]
  exact ⟨⟨append_ne_of_head 'p' _ s _ rfl (by decide),
          append_ne_of_head 'p' _ s _ rfl (by decide)⟩,
         append_ne_of_head 'p' _ s _ rfl (by decide)⟩

/-- Function `_transport_flag` always returns one of the three closed variants. -/
theorem transport_flag_cases (t : String) :
    transport_flag t = ["--grpc-rere"] ∨ transport_flag t = ["--grpc-adapter"]
    ∨ transport_flag t = ["--rest"] := by
  unfold transport_flag
  split_ifs <;> simp

/-- C6: for every transport string the assembled argument list contains
exactly one transport flag — the remote-procedure flag for `"grpc-rere"`,
the adapter flag for `"grpc-adapter"`, and the REST flag for any other
string; the selection is total (never raises). -/
theorem transport_selection_c6 (o : Options) :
    (build_cmd o).filter isTransportFlag = transport_flag o.transport
    ∧ (transport_flag o.transport).length = 1
    ∧ (o.transport = "grpc-rere" → transport_flag o.transport = ["--grpc-rere"])
    ∧ (o.transport = "grpc-adapter" →
        transport_flag o.transport = ["--grpc-adapter"])
    ∧ (o.transport ≠ "grpc-rere" → o.transport ≠ "grpc-adapter" →
        transport_flag o.transport = ["--rest"]) := by
  refine ⟨?_, ?_, ?_, ?_, ?_⟩
  · have hA : isTransportFlag "flower-supernode" = false := rfl
    have hB : isTransportFlag "--insecure" = false := rfl
    have hC : isTransportFlag "--node-config" = false := rfl
    have h1 := not_tflag_superlink (build_targets o).superlink
    have h2 := not_tflag_clientapp (build_targets o).clientapp
    have h3 : isTransportFlag (build_node_config o).as_flag = false := by
      simp only [NodeConfig.as_flag]
      exact not_tflag_partition _
    have htf : (transport_flag o.transport).filter isTransportFlag =
        transport_flag o.transport := by
      rcases transport_flag_cases o.transport with h | h | h <;> rw [h] <;> rfl
    simp only [build_cmd, List.filter_append, List.filter_cons, List.filter_nil,
      hA, hB, hC, h1, h2, h3, htf, Bool.false_eq_true, if_false,
      List.nil_append, List.append_nil]
  · rcases transport_flag_cases o.transport with h | h | h <;> rw [h] <;> rfl
  · intro h; simp [transport_flag, h]
  · intro h
    have hne : o.transport ≠ "grpc-rere" := by
      rw [h]; decide
    simp [transport_flag, hne, h]
  · intro h1 h2; simp [transport_flag, h1, h2]

/-- C6 witness: with the default options the command line carries exactly
the remote-procedure flag. -/
theorem transport_selection_c6_witness :
    (build_cmd opts0).filter isTransportFlag = transport_flag opts0.transport
    ∧ transport_flag opts0.transport = ["--grpc-rere"] :=
  ⟨(transport_selection_c6 opts0).1, (transport_selection_c6 opts0).2.2.1 rfl⟩

/-- C7: node configuration validation succeeds exactly for
`0 ≤ cid < total_clients` (which forces `total_clients ≥ 1`), and on any
violating pair `_plugin_main` fails with the ConfigurationError before any
effect — in particular before any child process is spawned (the event trace
is empty). -/
theorem config_validation_c7 (dumps : JVal → String)
    (decode : String → Option JVal) (expander : String → String)
    (ambient : List (String × String)) (o : Options) (beh : RunBehavior)
    (outputdir : String) :
    (validate_config o.cid o.total_clients = Except.ok () ↔
      0 ≤ o.cid ∧ o.cid < o.total_clients)
    ∧ (∀ msg, validate_config o.cid o.total_clients = Except.error msg →
        plugin_main dumps decode expander ambient o beh outputdir =
          (Except.error (PlugErr.configError msg), [])) := by
  constructor
  · unfold validate_config
    split_ifs with h1 h2
    · constructor
      · intro h; exact absurd h (by simp)
      · intro h; exfalso; omega
    · constructor
      · intro h; exact absurd h (by simp)
      · intro h; exfalso; omega
    · constructor
      · intro _; constructor <;> omega
      · intro _; rfl
  · intro msg h
    simp [plugin_main, h]

/-- C7 witness: `cid = 5` with `total_clients = 3` violates the bound; the
run fails with the ConfigurationError and an empty effect trace. -/
theorem config_validation_c7_witness :
    plugin_main dumps0 decode0 id [] { opts0 with cid := 5 } beh00 "/out" =
      (Except.error
        (PlugErr.configError "cid must be within [0, total-clients)"), []) :=
  (config_validation_c7 dumps0 decode0 id [] { opts0 with cid := 5 } beh00
    "/out").2 _ rfl

/-- Assignment `env[key] = value` yields a mapping where `key` reads back `value`. -/
theorem setVar_lookup_self (env : List (String × String)) (key value : String) :
    (setVar env key value).lookup key = some value := by
  induction env with
  | nil => simp [setVar, List.lookup]
  | cons kv rest ih =>
    by_cases h : kv.1 = key
    · simp [setVar, h, List.lookup]
    · have hb : (key == kv.1) = false :=
        beq_eq_false_iff_ne.mpr fun e => h e.symm
      simp [setVar, h, List.lookup, hb, ih]

/-- Assignment `env[key] = value` leaves every other key's lookup unchanged. -/
theorem setVar_lookup_other (env : List (String × String))
    (key value k : String) (hk : k ≠ key) :
    (setVar env key value).lookup k = env.lookup k := by
  induction env with
  | nil => simp [setVar, List.lookup, beq_eq_false_iff_ne.mpr hk]
  | cons kv rest ih =>
    by_cases h : kv.1 = key
    · have h1 : (k == key) = false := beq_eq_false_iff_ne.mpr hk
      have h2 : (k == kv.1) = false := by
        rw [beq_eq_false_iff_ne, h]
        exact hk
      simp [setVar, h, List.lookup, h1, h2, ih]
    · rcases hh : (k == kv.1) with _ | _ <;>
        simp [setVar, h, List.lookup, hh, ih]

/-- After `mkdir(parents=True, exist_ok=True)` the directory exists. -/
theorem mkdirP_contains (dirs : List String) (p : String) :
    (mkdirP dirs p).contains p = true := by
  unfold mkdirP
  by_cases h : dirs.contains p = true
  · rw [if_pos h]; exact h
  · rw [if_neg h]; simp [List.contains_cons]

/-- Creating an already-existing directory changes nothing (and in
particular does not fail). -/
theorem mkdirP_idem (dirs : List String) (p : String)
    (h : dirs.contains p = true) : mkdirP dirs p = dirs := by
  unfold mkdirP; rw [if_pos h]

/-- The C8 property: calling the environment builder twice with the same
`(root, cid)` yields the same path, the second directory creation is a
no-op (so it cannot fail), and the produced environment agrees with the
ambient one on every variable except `FLWR_HOME`, which points at the
per-node directory. -/
def EnvSpec (ambient : List (String × String)) (dirs : List String)
    (expander : String → String) (root : String) (cid : Int) : Prop :=
  (prepare_environment ambient
      (prepare_environment ambient dirs expander root cid).2.2
      expander root cid).2.1 =
    (prepare_environment ambient dirs expander root cid).2.1
  ∧ (prepare_environment ambient
      (prepare_environment ambient dirs expander root cid).2.2
      expander root cid).2.2 =
    (prepare_environment ambient dirs expander root cid).2.2
  ∧ ((prepare_environment ambient dirs expander root cid).1).lookup "FLWR_HOME"
      = some (prepare_environment ambient dirs expander root cid).2.1
  ∧ ∀ k, k ≠ "FLWR_HOME" →
      ((prepare_environment ambient dirs expander root cid).1).lookup k =
        ambient.lookup k

/-- C8: the environment builder is idempotent on the filesystem and injects
exactly the one working-directory variable. -/
theorem env_builder_c8 (ambient : List (String × String)) (dirs : List String)
    (expander : String → String) (root : String) (cid : Int) :
    EnvSpec ambient dirs expander root cid := by
  refine ⟨rfl, ?_, ?_, ?_⟩
  · exact mkdirP_idem _ _ (mkdirP_contains dirs _)
  · exact setVar_lookup_self ambient "FLWR_HOME" _
  · intro k hk
    exact setVar_lookup_other ambient "FLWR_HOME" _ k hk

/-- C8 witness: a concrete double call with an ambient environment holding
`PATH` and a stale `FLWR_HOME`. -/
theorem env_builder_c8_witness :
    EnvSpec [("PATH", "/usr/bin"), ("FLWR_HOME", "/stale")] [] id
      "/tmp/fedmed-flwr-node" 0
    ∧ ((prepare_environment [("PATH", "/usr/bin"), ("FLWR_HOME", "/stale")] []
        id "/tmp/fedmed-flwr-node" 0).1).lookup "PATH" = some "/usr/bin" := by
  have h := env_builder_c8 [("PATH", "/usr/bin"), ("FLWR_HOME", "/stale")] [] id
    "/tmp/fedmed-flwr-node" 0
  exact ⟨h, (h.2.2.2 "PATH" (by decide)).trans rfl⟩

/-- C9: a result file is written only when the supervised run returns a
record — whenever `_plugin_main`'s run raises (configuration error or
worker failure), no write event appears in the trace. -/
theorem write_only_on_success_c9 (dumps : JVal → String)
    (decode : String → Option JVal) (expander : String → String)
    (ambient : List (String × String)) (o : Options) (beh : RunBehavior)
    (outputdir : String) :
    ∀ p c, Event.writeE p c ∈
        (plugin_main dumps decode expander ambient o beh outputdir).2 →
      ∃ s, (plugin_main dumps decode expander ambient o beh outputdir).1 =
        Except.ok s := by
  intro p c hmem
  rcases hv : validate_config o.cid o.total_clients with msg | u
  · rw [show (plugin_main dumps decode expander ambient o beh outputdir) =
        (Except.error (PlugErr.configError msg), []) by simp [plugin_main, hv]]
      at hmem
    simp at hmem
  · rcases hr : run_supernode decode o beh with code | s
    · simp [plugin_main, hv, hr] at hmem
    · refine ⟨s, ?_⟩
      by_cases hk : o.keep_state <;> simp [plugin_main, hv, hr, hk]

/-- C9 witness: a successful default run does write, and its result is a
record. -/
theorem write_only_on_success_c9_witness :
    ∃ s, (plugin_main dumps0 decode0 id [] opts0 beh00 "/out").1 =
      Except.ok s :=
  write_only_on_success_c9 dumps0 decode0 id [] opts0 beh00 "/out"
    "/out/client_metrics.json" "serialized" (by decide)

/-- The C10 property: on a validated run whose child exits zero, the full
effect trace is mkdir, spawn, cleanup, result write — followed by the
recursive deletion of the per-node state directory exactly when
`keep_state` is unset (the deletion, which never fails, comes after the
write); with `keep_state` set no deletion event occurs at all. -/
def TeardownSpec (dumps : JVal → String) (decode : String → Option JVal)
    (expander : String → String) (ambient : List (String × String))
    (o : Options) (beh : RunBehavior) (outputdir : String) : Prop :=
  ∃ s, run_supernode decode o beh = Except.ok s
    ∧ (plugin_main dumps decode expander ambient o beh outputdir).1 =
        Except.ok s
    ∧ (o.keep_state = true →
        (plugin_main dumps decode expander ambient o beh outputdir).2 =
          [Event.mkdirE
              (prepare_environment ambient [] expander o.state_dir o.cid).2.1,
           Event.spawnE (build_cmd o), Event.cleanupE,
           Event.writeE (outputdir ++ ("/" ++ o.metrics_file)) (dumps s)]
        ∧ ∀ pth, Event.rmtreeE pth ∉
            (plugin_main dumps decode expander ambient o beh outputdir).2)
    ∧ (o.keep_state = false →
        (plugin_main dumps decode expander ambient o beh outputdir).2 =
          [Event.mkdirE
              (prepare_environment ambient [] expander o.state_dir o.cid).2.1,
           Event.spawnE (build_cmd o), Event.cleanupE,
           Event.writeE (outputdir ++ ("/" ++ o.metrics_file)) (dumps s),
           Event.rmtreeE
              (prepare_environment ambient [] expander o.state_dir o.cid).2.1])

/-- C10: after a successful run the per-node working directory is deleted
after the result file has been written, unless `keep_state` is set, in
which case it is left in place. -/
theorem state_teardown_c10 (dumps : JVal → String)
    (decode : String → Option JVal) (expander : String → String)
    (ambient : List (String × String)) (o : Options) (beh : RunBehavior)
    (outputdir : String)
    (hv : validate_config o.cid o.total_clients = Except.ok ())
    (he : beh.exitCode = 0) :
    TeardownSpec dumps decode expander ambient o beh outputdir := by
  rcases hr : run_supernode decode o beh with code | s
  · exfalso
    rcases hm : (processLines decode beh.stdoutLines none).1 with _ | m <;>
      simp [run_supernode, he, hm] at hr
  · refine ⟨s, hr, ?_, ?_, ?_⟩
    · by_cases hk : o.keep_state <;> simp [plugin_main, hv, hr, hk]
    · intro hk
      constructor
      · simp [plugin_main, hv, hr, hk]
      · intro pth
        simp [plugin_main, hv, hr, hk]
    · intro hk
      simp [plugin_main, hv, hr, hk]

/-- C10 witness: default options (keep-state unset), child exits 0. -/
theorem state_teardown_c10_witness :
    TeardownSpec dumps0 decode0 id [] opts0 beh00 "/out" :=
  state_teardown_c10 dumps0 decode0 id [] opts0 beh00 "/out" rfl rfl

end PlSupernode
